import Mathlib

/-!
Shallow embedding of `src/graphviz/rendering.py` (the render / pipe /
unflatten / view facade of the graphviz package) together with models of
the collaborating modules (`backend`, `files`, encoding resolution) that
the facade delegates to.  Pure Python functions become Lean functions;
raised exceptions become `Except` errors; the filesystem is a list of
paths; subprocess spawns and viewer launches are recorded in an explicit
event trace.  The external Graphviz tools themselves are abstracted as
an `Env` of deterministic functions.
-/

namespace Graphviz

/-- Error taxonomy of the library (spec section 7): exceptions raised by the
rendering layer.  `requiredArgument` models `graphviz.RequiredArgumentError`,
`executableNotFound` models `graphviz.ExecutableNotFound`, `calledProcess`
models `subprocess.CalledProcessError`, `decodeError` models
`UnicodeDecodeError`, and `runtimeError` models Python's `RuntimeError`
raised by `RenderFileView._view`. -/
inductive GvError where
  | requiredArgument (msg : String)
  | executableNotFound (name : String)
  | calledProcess (code : Nat) (err : String)
  | decodeError (enc : String)
  | runtimeError (msg : String)
deriving DecidableEq, Repr

/-- Observable side effects of one facade call: a subprocess spawn, the
invocation of `RenderFileView._view` with the format it was handed, and the
start of a platform viewer process. -/
inductive Event where
  | spawn (exe : String)
  | viewCall (format platform : String)
  | viewStart (methodName handler format filepath : String) (quiet : Bool)
deriving DecidableEq, Repr

/-- `True` exactly on the `_view`-invocation events of a trace. -/
def Event.isViewCall : Event → Bool
  | .viewCall _ _ => true
  | _ => false

/-- The `Source` value of the library: an immutable DOT text blob plus the
configuration fields the mixins carry (`filename`/`directory` from
`files.File`, `_format`/`_engine` from `backend.Graphviz`, `_encoding` from
`encoding.Encoding`). -/
structure Source where
  source : String
  filename : String
  directory : Option String
  format : String
  engine : String
  encoding : String
deriving DecidableEq, Repr

/-- Modelled from the spec: canonicalization performed by `codecs.lookup`
(section 4.3: encoding comparison is "canonicalized, e.g. case/alias-insensitive").
Lower-cases the name, strips separator characters, and resolves the common
UTF-8 aliases to one canonical codec name. -/
def canonicalCodec (enc : String) : String :=
  let norm := String.mk (enc.data.filterMap fun c =>
    if c = '-' ∨ c = '_' ∨ c = ' ' then none else some c.toLower)
  if norm = "u8" ∨ norm = "utf" then "utf8" else norm

/-- UTF-8 encoding of a single code point (1 to 4 bytes). -/
def utf8EncodeChar (n : Nat) : List Nat :=
  if n < 0x80 then [n]
  else if n < 0x800 then [0xC0 + n / 64, 0x80 + n % 64]
  else if n < 0x10000 then [0xE0 + n / 4096, 0x80 + n / 64 % 64, 0x80 + n % 64]
  else [0xF0 + n / 262144, 0x80 + n / 4096 % 64, 0x80 + n / 64 % 64, 0x80 + n % 64]

/-- Fuel-indexed UTF-8 decoder for byte lists (strictness modelled after
Python's strict error handler: malformed sequences yield `none`). -/
def utf8DecodeAux : Nat → List Nat → Option (List Char)
  | _, [] => some []
  | 0, _ :: _ => none
  | fuel + 1, b :: rest =>
    if b < 0x80 then
      (utf8DecodeAux fuel rest).map (Char.ofNat b :: ·)
    else if b < 0xC2 then none
    else if b < 0xE0 then
      match rest with
      | b1 :: rest2 =>
        if 0x80 ≤ b1 ∧ b1 < 0xC0 then
          (utf8DecodeAux fuel rest2).map (Char.ofNat ((b - 0xC0) * 64 + (b1 - 0x80)) :: ·)
        else none
      | [] => none
    else if b < 0xF0 then
      match rest with
      | b1 :: b2 :: rest3 =>
        if (0x80 ≤ b1 ∧ b1 < 0xC0) ∧ (0x80 ≤ b2 ∧ b2 < 0xC0) then
          (utf8DecodeAux fuel rest3).map
            (Char.ofNat ((b - 0xE0) * 4096 + (b1 - 0x80) * 64 + (b2 - 0x80)) :: ·)
        else none
      | _ => none
    else if b < 0xF5 then
      match rest with
      | b1 :: b2 :: b3 :: rest4 =>
        if (0x80 ≤ b1 ∧ b1 < 0xC0) ∧ (0x80 ≤ b2 ∧ b2 < 0xC0) ∧ (0x80 ≤ b3 ∧ b3 < 0xC0) then
          (utf8DecodeAux fuel rest4).map
            (Char.ofNat ((b - 0xF0) * 262144 + (b1 - 0x80) * 4096
                          + (b2 - 0x80) * 64 + (b3 - 0x80)) :: ·)
        else none
      | _ => none
    else none

/-- Modelled from the spec: the byte encoder of the Encoding Resolver
(section 4.3).  Dispatches on the canonicalized codec name, so two encoding
names naming the same codec encode identically: `utf8` is real UTF-8, every
other codec in the model (`ascii`, `latin1`, ...) maps code points to single
bytes. -/
def encodeBytes (enc : String) (s : String) : List Nat :=
  if canonicalCodec enc = "utf8" then s.data.flatMap (fun c => utf8EncodeChar c.toNat)
  else s.data.map Char.toNat

/-- Modelled from the spec: the byte decoder of the Encoding Resolver
(section 4.3); decoding failures surface as `GvError.decodeError`, never as
replacement characters.  `ascii` rejects bytes above 127, `utf8` rejects
malformed sequences, the remaining single-byte codecs accept bytes
below 256. -/
def decodeBytes (enc : String) (bs : List Nat) : Except GvError String :=
  if canonicalCodec enc = "utf8" then
    match utf8DecodeAux bs.length bs with
    | some cs => .ok (String.mk cs)
    | none => .error (.decodeError enc)
  else if canonicalCodec enc = "ascii" then
    if bs.all (· < 0x80) then .ok (String.mk (bs.map Char.ofNat))
    else .error (.decodeError enc)
  else
    if bs.all (· < 0x100) then .ok (String.mk (bs.map Char.ofNat))
    else .error (.decodeError enc)

/-- Behaviour of the external Graphviz executables, abstracted as
deterministic functions (spec section 1: layout itself is delegated).
`dot` maps engine, format, renderer/formatter refinement, quiet flag and
encoded stdin bytes to stdout bytes or a process failure; `render` is the
file-to-file invocation; `unflatten` is the preprocessor executable. -/
structure Env where
  dot : String → String → Option String → Option String → Bool →
        List Nat → Except GvError (List Nat)
  render : String → String → String → Option String → Option String → Bool →
           Except GvError Unit
  unflatten : Option Nat → Bool → Option Nat → String → String →
              Except GvError String

/-- Modelled from the spec: the dependent-argument precondition of the
Command Builder (section 4.1) — `formatter` without `renderer` fails with
`RequiredArgumentError` before any subprocess is spawned, for every format
value. -/
def commandCheck (renderer formatter : Option String) : Except GvError Unit :=
  if formatter.isSome ∧ renderer.isNone then
    .error (.requiredArgument "formatter given without renderer")
  else .ok ()

/-- Modelled from the spec: `backend.pipe_lines` (sections 4.2 and 4.3) —
validate the renderer/formatter pair, encode the source with the input
encoding, spawn the layout subprocess, and return its raw stdout bytes. -/
def backendPipeLines (env : Env) (engine format : String)
    (renderer formatter : Option String) (quiet : Bool)
    (inputEncoding : String) (input : String) :
    Except GvError (List Nat) × List Event :=
  match commandCheck renderer formatter with
  | .error e => (.error e, [])
  | .ok _ =>
    match env.dot engine format renderer formatter quiet (encodeBytes inputEncoding input) with
    | .error e => (.error e, [.spawn "dot"])
    | .ok out => (.ok out, [.spawn "dot"])

/-- Modelled from the spec: `backend.pipe_lines_string` (section 4.3) — the
single-encoding code path: both stdin and stdout use the same codec, and the
captured stdout is decoded with it before being returned. -/
def backendPipeLinesString (env : Env) (engine format : String)
    (renderer formatter : Option String) (quiet : Bool)
    (encoding : String) (input : String) :
    Except GvError String × List Event :=
  match backendPipeLines env engine format renderer formatter quiet encoding input with
  | (.error e, t) => (.error e, t)
  | (.ok out, t) =>
    match decodeBytes encoding out with
    | .error e => (.error e, t)
    | .ok s => (.ok s, t)

/-- Result of `Pipe.pipe`: raw stdout bytes when no output encoding was
requested, decoded text otherwise. -/
inductive PipeOut where
  | bytes (bs : List Nat)
  | text (s : String)
deriving DecidableEq, Repr

/-- `Pipe.pipe` (rendering.py lines 84-144): resolve the format default,
then either take the same-encoding fast path through
`backend.pipe_lines_string`, or fetch raw bytes through `backend.pipe_lines`
and decode them with the requested encoding, or return the raw bytes when no
encoding was requested.  The codec-identity test
`codecs.lookup(encoding) is codecs.lookup(self._encoding)` is equality of
canonicalized codec names. -/
def Pipe.pipe (env : Env) (self : Source)
    (format renderer formatter : Option String) (quiet : Bool)
    (encoding : Option String) : Except GvError PipeOut × List Event :=
  let fmt := format.getD self.format
  match encoding with
  | some enc =>
    if canonicalCodec enc = canonicalCodec self.encoding then
      match backendPipeLinesString env self.engine fmt renderer formatter quiet enc self.source with
      | (.error e, t) => (.error e, t)
      | (.ok s, t) => (.ok (.text s), t)
    else
      match backendPipeLines env self.engine fmt renderer formatter quiet self.encoding self.source with
      | (.error e, t) => (.error e, t)
      | (.ok raw, t) =>
        match decodeBytes enc raw with
        | .error e => (.error e, t)
        | .ok s => (.ok (.text s), t)
  | none =>
    match backendPipeLines env self.engine fmt renderer formatter quiet self.encoding self.source with
    | (.error e, t) => (.error e, t)
    | (.ok raw, t) => (.ok (.bytes raw), t)

/-- Modelled from the spec: `backend.unflatten` (section 4.4) —
`fanout=true` without `stagger` fails with `RequiredArgumentError` before
the unflatten subprocess is invoked; otherwise the preprocessor executable
rewrites the source text. -/
def backendUnflatten (env : Env) (source : String) (stagger : Option Nat)
    (fanout : Bool) (chain : Option Nat) (encoding : String) :
    Except GvError String × List Event :=
  if fanout && stagger.isNone then
    (.error (.requiredArgument "fanout given without stagger"), [])
  else
    match env.unflatten stagger fanout chain encoding source with
    | .error e => (.error e, [.spawn "unflatten"])
    | .ok out => (.ok out, [.spawn "unflatten"])

/-- `Unflatten.unflatten` (rendering.py lines 26-60): pipe the source text
through the unflatten preprocessor and wrap the output in a new `Source`
that explicitly copies `filename`, `directory`, `_format`, `_engine` and
`_encoding` from `self`. -/
def Unflatten.unflatten (env : Env) (self : Source)
    (stagger : Option Nat) (fanout : Bool) (chain : Option Nat) :
    Except GvError Source × List Event :=
  match backendUnflatten env self.source stagger fanout chain self.encoding with
  | (.error e, t) => (.error e, t)
  | (.ok out, t) =>
    (.ok { source := out, filename := self.filename, directory := self.directory,
           format := self.format, engine := self.engine,
           encoding := self.encoding }, t)

/-- Modelled from the spec: `files.File.save` path computation (section 6) —
the source is saved under `filename` (defaulting to the object's filename)
inside the optional directory (argument overriding the object's directory). -/
def savePath (self : Source) (filename directory : Option String) : String :=
  let fname := filename.getD self.filename
  match directory <|> self.directory with
  | some d => d ++ "/" ++ fname
  | none => fname

/-- Modelled from the spec: `backend.render` (sections 4.1, 4.2, 6) —
validate the renderer/formatter pair before spawning, then run the layout
tool on the saved file; the rendered output path is the source path plus the
format extension. -/
def backendRender (env : Env) (engine format filepath : String)
    (renderer formatter : Option String) (quiet : Bool) :
    Except GvError String × List Event :=
  match commandCheck renderer formatter with
  | .error e => (.error e, [])
  | .ok _ =>
    match env.render engine format filepath renderer formatter quiet with
    | .error e => (.error e, [.spawn "dot"])
    | .ok _ => (.ok (filepath ++ "." ++ format), [.spawn "dot"])

/-- The two candidate method names tried by `RenderFileView._view`
(rendering.py lines 251-254): first keyed by format and platform, then by
platform alone. -/
def viewMethodNames (format platform : String) : List String :=
  ["_view_" ++ format ++ "_" ++ platform, "_view_" ++ platform]

/-- `getattr(self, name, None)`: look a method name up in the object's
attribute table (the combined class defines `_view_darwin`,
`_view_freebsd`, `_view_linux` and `_view_windows`; subclasses may add
format-specific entries). -/
def getattrOpt (attrs : List (String × String)) (name : String) : Option String :=
  (attrs.find? (fun p => p.1 == name)).map Prod.snd

/-- The viewer attributes defined on `RenderFileView` itself
(rendering.py lines 265-268), mapping method name to backend launcher. -/
def defaultViewAttrs : List (String × String) :=
  [("_view_darwin", "view_darwin"), ("_view_freebsd", "view_unixoid"),
   ("_view_linux", "view_unixoid"), ("_view_windows", "view_windows")]

/-- The `RuntimeError` message of `RenderFileView._view` when no handler
exists: it names the unsupported format and the platform. -/
def viewUnsupportedMsg (format platform : String) : String :=
  "RenderFileView has no built-in viewer support for " ++ format
    ++ " on " ++ platform ++ " platform"

/-- `RenderFileView._view` (rendering.py lines 249-263): take the first
method name that resolves to an attribute and start that viewer with the
rendered file path and the quiet flag; raise `RuntimeError` when neither
name resolves. -/
def viewDispatch (attrs : List (String × String)) (platform : String)
    (filepath format : String) (quiet : Bool) :
    Except GvError Event :=
  match (viewMethodNames format platform).findSome?
      (fun n => (getattrOpt attrs n).map (fun h => (n, h))) with
  | some (n, h) => .ok (.viewStart n h format filepath quiet)
  | none => .error (.runtimeError (viewUnsupportedMsg format platform))

/-- `RenderFile.render` (rendering.py lines 150-211): save the source to
`filepath`, resolve the format default, render via `backend.render`, delete
the source file when `cleanup` is set (only reached when rendering
succeeded), then dispatch the viewer when `quiet_view or view` — note the
source passes `self._format` to `_view`, not the resolved `format`
argument.  Returns the rendered path, the final filesystem (list of paths
on disk) and the event trace. -/
def RenderFile.render (env : Env) (attrs : List (String × String))
    (platform : String) (self : Source) (fs : List String)
    (filename directory : Option String) (view cleanup : Bool)
    (format renderer formatter : Option String) (quiet quiet_view : Bool) :
    Except GvError String × List String × List Event :=
  let filepath := savePath self filename directory
  let fs1 := filepath :: fs
  let fmt := format.getD self.format
  match backendRender env self.engine fmt filepath renderer formatter quiet with
  | (.error e, t) => (.error e, fs1, t)
  | (.ok rendered, t) =>
    let fs2 := rendered :: fs1
    let fs3 := if cleanup then fs2.filter (fun p => p != filepath) else fs2
    if quiet_view || view then
      match viewDispatch attrs platform rendered self.format quiet_view with
      | .error e => (.error e, fs3, t ++ [.viewCall self.format platform])
      | .ok ev => (.ok rendered, fs3, t ++ [.viewCall self.format platform, ev])
    else (.ok rendered, fs3, t)

/-- `RenderFileView.view` (rendering.py lines 217-247): short-cut for
calling `render` with `view=True` and the remaining arguments forwarded
unchanged (format, renderer and formatter are left at their defaults). -/
def RenderFileView.view (env : Env) (attrs : List (String × String))
    (platform : String) (self : Source) (fs : List String)
    (filename directory : Option String) (cleanup quiet quiet_view : Bool) :
    Except GvError String × List String × List Event :=
  RenderFile.render env attrs platform self fs filename directory
    true cleanup none none none quiet quiet_view

/-- Concrete tool environment for witnesses: dot echoes its stdin bytes,
file rendering always succeeds, unflatten prepends a marker. -/
def env0 : Env where
  dot := fun _ _ _ _ _ bs => .ok bs
  render := fun _ _ _ _ _ _ => .ok ()
  unflatten := fun _ _ _ _ s => .ok ("unflattened " ++ s)

/-- Concrete tool environment for witnesses in which every invocation exits
with status 1 and stderr text boom. -/
def envFail : Env where
  dot := fun _ _ _ _ _ _ => .error (.calledProcess 1 "boom")
  render := fun _ _ _ _ _ _ => .error (.calledProcess 1 "boom")
  unflatten := fun _ _ _ _ _ => .error (.calledProcess 1 "boom")

/-- Concrete tool environment whose dot emits a byte above 127, so that
ASCII decoding of its output fails. -/
def envHighByte : Env where
  dot := fun _ _ _ _ _ _ => .ok [200]
  render := fun _ _ _ _ _ _ => .ok ()
  unflatten := fun _ _ _ _ s => .ok s

/-- Concrete source object for witnesses. -/
def src0 : Source :=
  { source := "graph spam", filename := "g.gv", directory := none,
    format := "pdf", engine := "dot", encoding := "utf8" }

/-- Helper: the trace of a `backend.render` call is empty (validation
failed before spawning) or the single dot spawn. -/
theorem backendRender_trace (env : Env) (engine format filepath : String)
    (renderer formatter : Option String) (quiet : Bool) :
    (backendRender env engine format filepath renderer formatter quiet).2 = []
      ∨ (backendRender env engine format filepath renderer formatter quiet).2
          = [Event.spawn "dot"] := by
  unfold backendRender
  cases commandCheck renderer formatter with
  | error e => exact Or.inl rfl
  | ok u =>
    cases env.render engine format filepath renderer formatter quiet with
    | error e => exact Or.inr rfl
    | ok v => exact Or.inr rfl

/-- C5: for every source, calling unflatten with `fanout=true` while
`stagger` is `None` fails with `RequiredArgumentError` and the unflatten
subprocess is never invoked (empty event trace). -/
theorem unflatten_fanout_requires_stagger (env : Env) (self : Source)
    (chain : Option Nat) :
    Unflatten.unflatten env self none true chain
      = (.error (.requiredArgument "fanout given without stagger"), []) := by
  rfl

/-- C4: providing `formatter` while `renderer` is `None` makes both
`Pipe.pipe` and `RenderFile.render` fail with `RequiredArgumentError`
before any subprocess is spawned (the event trace is empty), for every
format value. -/
theorem formatter_requires_renderer (env : Env) (self : Source)
    (format : Option String) (f : String) (quiet : Bool)
    (encoding : Option String) (attrs : List (String × String))
    (platform : String) (fs : List String)
    (filename directory : Option String) (view cleanup quiet_view : Bool) :
    Pipe.pipe env self format none (some f) quiet encoding
      = (.error (.requiredArgument "formatter given without renderer"), [])
    ∧ RenderFile.render env attrs platform self fs filename directory
        view cleanup format none (some f) quiet quiet_view
      = (.error (.requiredArgument "formatter given without renderer"),
         savePath self filename directory :: fs, []) := by
  constructor
  · unfold Pipe.pipe backendPipeLinesString backendPipeLines commandCheck
    cases encoding with
    | none => simp
    | some enc =>
      by_cases h : canonicalCodec enc = canonicalCodec self.encoding
      · simp [h]
      · simp [h]
  · unfold RenderFile.render backendRender commandCheck
    simp

/-- C7: `RenderFileView.view` is exactly `RenderFile.render` invoked with
the same arguments and the view flag forced true: the whole observable
outcome (result, filesystem, event trace) coincides, and in particular the
returned rendered file path is the same. -/
theorem view_eq_render_with_view (env : Env) (attrs : List (String × String))
    (platform : String) (self : Source) (fs : List String)
    (filename directory : Option String) (cleanup quiet quiet_view : Bool) :
    RenderFileView.view env attrs platform self fs filename directory
        cleanup quiet quiet_view
      = RenderFile.render env attrs platform self fs filename directory
          true cleanup none none none quiet quiet_view
    ∧ (RenderFileView.view env attrs platform self fs filename directory
        cleanup quiet quiet_view).1
      = (RenderFile.render env attrs platform self fs filename directory
          true cleanup none none none quiet quiet_view).1 :=
  ⟨rfl, rfl⟩

/-- C8: a successful unflatten call returns a new `Source` whose filename,
directory, format, engine and encoding are identical to the input's, and
whose source text is exactly the preprocessor's output. -/
theorem unflatten_preserves_metadata (env : Env) (self : Source)
    (stagger : Option Nat) (fanout : Bool) (chain : Option Nat)
    (s2 : Source) (t : List Event)
    (h : Unflatten.unflatten env self stagger fanout chain = (.ok s2, t)) :
    s2.filename = self.filename ∧ s2.directory = self.directory
    ∧ s2.format = self.format ∧ s2.engine = self.engine
    ∧ s2.encoding = self.encoding
    ∧ (backendUnflatten env self.source stagger fanout chain self.encoding).1
        = .ok s2.source := by
  unfold Unflatten.unflatten at h
  rcases hb : backendUnflatten env self.source stagger fanout chain self.encoding
    with ⟨res, t2⟩
  rw [hb] at h
  cases res with
  | error e => simp at h
  | ok out =>
    have h1 : ({ source := out, filename := self.filename,
                 directory := self.directory, format := self.format,
                 engine := self.engine, encoding := self.encoding } : Source)
                = s2 := by
      have hfst := congrArg Prod.fst h
      simpa using hfst
    subst h1
    exact ⟨rfl, rfl, rfl, rfl, rfl, rfl⟩

/-- C8 witness: concrete successful unflatten run with `env0` and `src0`. -/
theorem unflatten_preserves_metadata_witness :
    ({ source := "unflattened " ++ "graph spam", filename := "g.gv",
       directory := none, format := "pdf", engine := "dot",
       encoding := "utf8" } : Source).filename = src0.filename
    ∧ ({ source := "unflattened " ++ "graph spam", filename := "g.gv",
         directory := none, format := "pdf", engine := "dot",
         encoding := "utf8" } : Source).directory = src0.directory
    ∧ ({ source := "unflattened " ++ "graph spam", filename := "g.gv",
         directory := none, format := "pdf", engine := "dot",
         encoding := "utf8" } : Source).format = src0.format
    ∧ ({ source := "unflattened " ++ "graph spam", filename := "g.gv",
         directory := none, format := "pdf", engine := "dot",
         encoding := "utf8" } : Source).engine = src0.engine
    ∧ ({ source := "unflattened " ++ "graph spam", filename := "g.gv",
         directory := none, format := "pdf", engine := "dot",
         encoding := "utf8" } : Source).encoding = src0.encoding
    ∧ (backendUnflatten env0 src0.source (some 3) false none src0.encoding).1
        = .ok ({ source := "unflattened " ++ "graph spam",
                 filename := "g.gv", directory := none, format := "pdf",
                 engine := "dot", encoding := "utf8" } : Source).source :=
  unflatten_preserves_metadata env0 src0 (some 3) false none _
    [Event.spawn "unflatten"] rfl

/-- C2: with `cleanup=true`, the saved source file is on disk after the call
exactly when the rendering step failed: a successful `backend.render` is
always followed by the delete, and on the failure path the delete is never
executed. -/
theorem render_cleanup_iff_success (env : Env) (attrs : List (String × String))
    (platform : String) (self : Source) (fs : List String)
    (filename directory : Option String) (view : Bool)
    (format renderer formatter : Option String) (quiet quiet_view : Bool) :
    (savePath self filename directory
        ∈ (RenderFile.render env attrs platform self fs filename directory
            view true format renderer formatter quiet quiet_view).2.1)
      ↔ ∃ e, (backendRender env self.engine (format.getD self.format)
              (savePath self filename directory) renderer formatter quiet).1
            = .error e := by
  unfold RenderFile.render
  rcases hb : backendRender env self.engine (format.getD self.format)
      (savePath self filename directory) renderer formatter quiet with ⟨res, t⟩
  cases res with
  | error e => simp [hb]
  | ok r =>
    by_cases hv : (quiet_view || view) = true
    · rcases hd : viewDispatch attrs platform r self.format quiet_view with e | ev
      · simp [hb, hv, hd, List.mem_filter]
      · simp [hb, hv, hd, List.mem_filter]
    · simp [hb, hv, List.mem_filter]

/-- C3: when the requested output encoding canonicalizes to the same codec
as the source's outbound encoding, the same-encoding fast path of
`Pipe.pipe` returns exactly the result of the raw-bytes path decoded with
the requested encoding. -/
theorem pipe_same_encoding_fast_path (env : Env) (self : Source)
    (format renderer formatter : Option String) (quiet : Bool) (enc : String)
    (h : canonicalCodec enc = canonicalCodec self.encoding) :
    (Pipe.pipe env self format renderer formatter quiet (some enc)).1 =
      (match (Pipe.pipe env self format renderer formatter quiet none).1 with
       | .ok (.bytes bs) => (decodeBytes enc bs).map PipeOut.text
       | .ok (.text s) => .ok (.text s)
       | .error e => .error e) := by
  have hb : encodeBytes enc self.source = encodeBytes self.encoding self.source := by
    unfold encodeBytes
    rw [h]
  simp only [Pipe.pipe]
  rw [if_pos h]
  unfold backendPipeLinesString backendPipeLines
  rw [hb]
  cases hc : commandCheck renderer formatter with
  | error e => simp
  | ok u =>
    cases hd : env.dot self.engine (format.getD self.format) renderer formatter
        quiet (encodeBytes self.encoding self.source) with
    | error e => simp
    | ok out =>
      cases hdec : decodeBytes enc out with
      | error e => simp [hdec, Except.map]
      | ok s => simp [hdec, Except.map]

/-- C9: when the requested output encoding canonicalizes to a different
codec than the source's outbound encoding and the raw output bytes cannot
be decoded with it, `Pipe.pipe` surfaces exactly that decode error. -/
theorem pipe_decode_error_propagates (env : Env) (self : Source)
    (format renderer formatter : Option String) (quiet : Bool) (enc : String)
    (raw : List Nat) (t : List Event) (err : GvError)
    (hne : canonicalCodec enc ≠ canonicalCodec self.encoding)
    (hok : backendPipeLines env self.engine (format.getD self.format)
        renderer formatter quiet self.encoding self.source = (.ok raw, t))
    (hdec : decodeBytes enc raw = .error err) :
    Pipe.pipe env self format renderer formatter quiet (some enc)
      = (.error err, t) := by
  simp only [Pipe.pipe]
  rw [if_neg hne, hok]
  simp [hdec]

/-- C3 witness: the fast-path equivalence at `env0`, `src0` and the
requested encoding UTF-8 (an alias of the source's codec utf8). -/
theorem pipe_same_encoding_fast_path_witness :
    canonicalCodec "UTF-8" = canonicalCodec src0.encoding
    ∧ (Pipe.pipe env0 src0 none none none false (some "UTF-8")).1 =
      (match (Pipe.pipe env0 src0 none none none false none).1 with
       | .ok (.bytes bs) => (decodeBytes "UTF-8" bs).map PipeOut.text
       | .ok (.text s) => .ok (.text s)
       | .error e => .error e) :=
  ⟨by decide,
   pipe_same_encoding_fast_path env0 src0 none none none false "UTF-8" (by decide)⟩

/-- C9 witness: dot output byte 200 cannot be decoded as ASCII; the decode
error is surfaced by `Pipe.pipe`. -/
theorem pipe_decode_error_propagates_witness :
    canonicalCodec "ascii" ≠ canonicalCodec src0.encoding
    ∧ Pipe.pipe envHighByte src0 none none none false (some "ascii")
        = (.error (.decodeError "ascii"), [Event.spawn "dot"]) :=
  ⟨by decide,
   pipe_decode_error_propagates envHighByte src0 none none none false "ascii"
     [200] [Event.spawn "dot"] (.decodeError "ascii") (by decide) rfl rfl⟩

/-- Helper: a successful `viewDispatch` always starts a viewer with the
format, filepath and quiet flag it was handed. -/
theorem viewDispatch_ok_shape (attrs : List (String × String))
    (platform filepath format : String) (quiet : Bool) (ev : Event)
    (h : viewDispatch attrs platform filepath format quiet = .ok ev) :
    ∃ n hd, ev = .viewStart n hd format filepath quiet := by
  unfold viewDispatch at h
  rcases hf : (viewMethodNames format platform).findSome?
      (fun n => (getattrOpt attrs n).map (fun hd => (n, hd))) with _ | ⟨n, hd⟩
  · rw [hf] at h
    simp at h
  · rw [hf] at h
    simp at h
    exact ⟨n, hd, h.symm⟩

/-- C6: viewer dispatch tries the handler keyed by format and platform
first, falls back to the handler keyed by platform alone, and with neither
present fails with a `RuntimeError` whose message contains both the format
and the platform. -/
theorem view_dispatch_fallback (attrs : List (String × String))
    (platform filepath format : String) (quiet : Bool) :
    (∀ h, getattrOpt attrs ("_view_" ++ format ++ "_" ++ platform) = some h →
        viewDispatch attrs platform filepath format quiet
          = .ok (.viewStart ("_view_" ++ format ++ "_" ++ platform) h
                  format filepath quiet))
    ∧ (getattrOpt attrs ("_view_" ++ format ++ "_" ++ platform) = none →
        ∀ h, getattrOpt attrs ("_view_" ++ platform) = some h →
        viewDispatch attrs platform filepath format quiet
          = .ok (.viewStart ("_view_" ++ platform) h format filepath quiet))
    ∧ (getattrOpt attrs ("_view_" ++ format ++ "_" ++ platform) = none →
        getattrOpt attrs ("_view_" ++ platform) = none →
        viewDispatch attrs platform filepath format quiet
          = .error (.runtimeError (viewUnsupportedMsg format platform)))
    ∧ List.IsInfix format.data (viewUnsupportedMsg format platform).data
    ∧ List.IsInfix platform.data (viewUnsupportedMsg format platform).data := by
  refine ⟨?_, ?_, ?_, ?_, ?_⟩
  · intro h h1
    simp [viewDispatch, viewMethodNames, List.findSome?, h1]
  · intro h1 h h2
    simp [viewDispatch, viewMethodNames, List.findSome?, h1, h2]
  · intro h1 h2
    simp [viewDispatch, viewMethodNames, List.findSome?, h1, h2]
  · exact ⟨("RenderFileView has no built-in viewer support for ").data,
      (" on " ++ platform ++ " platform").data,
      by simp [viewUnsupportedMsg, String.data_append, List.append_assoc]⟩
  · exact ⟨("RenderFileView has no built-in viewer support for " ++ format
        ++ " on ").data, (" platform").data,
      by simp [viewUnsupportedMsg, String.data_append, List.append_assoc]⟩

/-- C6 witness: the three dispatch outcomes at concrete attribute tables. -/
theorem view_dispatch_fallback_witness :
    viewDispatch [("_view_png_linux", "view_png")] "linux" "g.gv.png" "png" false
      = .ok (.viewStart ("_view_" ++ "png" ++ "_" ++ "linux") "view_png"
              "png" "g.gv.png" false)
    ∧ viewDispatch defaultViewAttrs "linux" "g.gv.png" "png" false
      = .ok (.viewStart ("_view_" ++ "linux") "view_unixoid" "png" "g.gv.png" false)
    ∧ viewDispatch defaultViewAttrs "sunos" "g.gv.png" "png" false
      = .error (.runtimeError (viewUnsupportedMsg "png" "sunos")) :=
  ⟨(view_dispatch_fallback [("_view_png_linux", "view_png")] "linux"
      "g.gv.png" "png" false).1 "view_png" (by decide),
   (view_dispatch_fallback defaultViewAttrs "linux"
      "g.gv.png" "png" false).2.1 (by decide) "view_unixoid" (by decide),
   (view_dispatch_fallback defaultViewAttrs "sunos"
      "g.gv.png" "png" false).2.2.1 (by decide) (by decide)⟩

/-- C10: with both `view` and `quiet_view` false, a render call never
invokes the viewer; with `quiet_view=true` (even though `view=false`), a
render whose rendering step succeeds always invokes the viewer. -/
theorem render_quiet_view_dispatch (env : Env) (attrs : List (String × String))
    (platform : String) (self : Source) (fs : List String)
    (filename directory : Option String) (cleanup : Bool)
    (format renderer formatter : Option String) (quiet : Bool) :
    ((RenderFile.render env attrs platform self fs filename directory
        false cleanup format renderer formatter quiet false).2.2).filter
          Event.isViewCall = []
    ∧ (∀ r t, backendRender env self.engine (format.getD self.format)
          (savePath self filename directory) renderer formatter quiet
          = (.ok r, t) →
        Event.viewCall self.format platform
          ∈ (RenderFile.render env attrs platform self fs filename directory
              false cleanup format renderer formatter quiet true).2.2) := by
  constructor
  · have ht := backendRender_trace env self.engine (format.getD self.format)
      (savePath self filename directory) renderer formatter quiet
    unfold RenderFile.render
    rcases hb : backendRender env self.engine (format.getD self.format)
        (savePath self filename directory) renderer formatter quiet with ⟨res, t⟩
    rw [hb] at ht
    simp only at ht
    cases res with
    | error e =>
      rcases ht with ht | ht <;>
        simp [hb, ht, List.filter, Event.isViewCall]
    | ok r =>
      rcases ht with ht | ht <;>
        simp [hb, ht, List.filter, Event.isViewCall]
  · intro r t hb
    unfold RenderFile.render
    rcases hd : viewDispatch attrs platform r self.format true with e | ev <;>
      simp [hb, hd]

/-- C10 witness: a concrete successful render with `quiet_view=true` and
`view=false` invokes the viewer, and one with both flags false does not. -/
theorem render_quiet_view_dispatch_witness :
    ((RenderFile.render env0 defaultViewAttrs "linux" src0 [] none none
        false false none none none false false).2.2).filter
          Event.isViewCall = []
    ∧ Event.viewCall "pdf" "linux"
        ∈ (RenderFile.render env0 defaultViewAttrs "linux" src0 [] none none
            false false none none none false true).2.2 :=
  ⟨(render_quiet_view_dispatch env0 defaultViewAttrs "linux" src0 []
      none none false none none none false).1,
   (render_quiet_view_dispatch env0 defaultViewAttrs "linux" src0 []
      none none false none none none false).2 "g.gv.pdf" [Event.spawn "dot"] rfl⟩

/-- C1 (amended): every viewer invocation made by `RenderFile.render` is
dispatched with the object's configured default format `self._format` (and
the host platform), regardless of the format argument used for rendering. -/
theorem render_view_call_uses_default_format (env : Env)
    (attrs : List (String × String)) (platform : String) (self : Source)
    (fs : List String) (filename directory : Option String)
    (view cleanup : Bool) (format renderer formatter : Option String)
    (quiet quiet_view : Bool) (f p : String)
    (h : Event.viewCall f p
        ∈ (RenderFile.render env attrs platform self fs filename directory
            view cleanup format renderer formatter quiet quiet_view).2.2) :
    f = self.format ∧ p = platform := by
  have ht := backendRender_trace env self.engine (format.getD self.format)
    (savePath self filename directory) renderer formatter quiet
  unfold RenderFile.render at h
  rcases hb : backendRender env self.engine (format.getD self.format)
      (savePath self filename directory) renderer formatter quiet with ⟨res, t⟩
  rw [hb] at ht
  simp only at ht
  have ht2 : Event.viewCall f p ∉ t := by
    rcases ht with ht | ht <;> simp [ht]
  cases res with
  | error e =>
    simp only [hb] at h
    exact absurd h ht2
  | ok r =>
    by_cases hv : (quiet_view || view) = true
    · rcases hd : viewDispatch attrs platform r self.format quiet_view with e | ev
      · simp [hb, hv, hd, List.mem_append] at h
        rcases h with h | ⟨h1, h2⟩
        · exact absurd h ht2
        · exact ⟨h1, h2⟩
      · obtain ⟨n, hdl, rfl⟩ := viewDispatch_ok_shape attrs platform r
          self.format quiet_view ev hd
        simp [hb, hv, hd, List.mem_append] at h
        rcases h with h | ⟨h1, h2⟩
        · exact absurd h ht2
        · exact ⟨h1, h2⟩
    · simp [hb, hv] at h
      exact absurd h ht2

/-- C1 amended-claim witness: a concrete render with viewing requested,
whose single viewer invocation carries the configured default format. -/
theorem render_view_call_uses_default_format_witness :
    Event.viewCall "pdf" "linux"
      ∈ (RenderFile.render env0 defaultViewAttrs "linux" src0 [] none none
          true false none none none false false).2.2
    ∧ "pdf" = src0.format ∧ "linux" = "linux" :=
  ⟨by decide,
   render_view_call_uses_default_format env0 defaultViewAttrs "linux" src0 []
     none none true false none none none false false "pdf" "linux" (by decide)⟩

/-- Attribute table containing a viewer handler keyed by the png format and
the linux platform, on top of the class defaults. -/
def attrsPng : List (String × String) :=
  ("_view_png_linux", "view_png") :: defaultViewAttrs

/-- C1 counterexample: the configured default format is pdf and rendering is
requested with the explicit format argument png; a handler keyed by
(png, linux) is available, yet the code dispatches the viewer with the
default pdf and therefore selects the platform-only fallback handler. -/
theorem render_view_format_counterexample :
    src0.format = "pdf"
    ∧ getattrOpt attrsPng ("_view_" ++ "png" ++ "_" ++ "linux") = some "view_png"
    ∧ RenderFile.render env0 attrsPng "linux" src0 [] none none true false
        (some "png") none none false false
      = (.ok "g.gv.png", ["g.gv.png", "g.gv"],
         [.spawn "dot", .viewCall "pdf" "linux",
          .viewStart "_view_linux" "view_unixoid" "pdf" "g.gv.png" false])
    ∧ ("png" : String) ≠ "pdf" := by
  refine ⟨rfl, by decide, ?_, by decide⟩
  rfl


end Graphviz
